import Mathlib

/-!
Verification development for the Conversational Query Orchestrator of the
aws-cdk-iot-strands-agents-chatbot-api repository.

The repository ships two kinds of artifacts:
* infrastructure code (`lib/strands-agent-chatbot-apigateway-stack.ts`),
  embedded below as concrete configuration data; and
* a Python Lambda orchestrator (`lambda/agent_handler.py`) that is described
  by the specification but is not part of the available sources; its
  components (validator, context builder, adapters, reasoning loop,
  formatter) are modelled from the specification, as marked on each
  definition.
-/

/-! ## Data model (spec §3, §6) -/

/-- Modelled from the spec: role of one chat turn, `user` or `assistant`. -/
inductive Role where
  | user
  | assistant
deriving DecidableEq, Repr

/-- Modelled from the spec: one validated message in a conversation. -/
structure ChatTurn where
  role : Role
  content : String
deriving DecidableEq, Repr

/-- Modelled from the spec: raw (unvalidated) turn as received over HTTP,
role still an arbitrary string. -/
structure RawTurn where
  role : String
  content : String
deriving DecidableEq, Repr

/-- Modelled from the spec: raw inbound request body; `message` may be
absent, `chat_history` is optional with default empty (spec §6). -/
structure RawRequest where
  message : Option String
  chat_history : Option (List RawTurn)
deriving DecidableEq, Repr

/-- Modelled from the spec: a validated ChatRequest. -/
structure ChatRequest where
  message : String
  chat_history : List ChatTurn
deriving DecidableEq, Repr

/-- Modelled from the spec: the error taxonomy of §7 (validation errors plus
loop/adapter-level errors).  The end-to-end deadline of §5 surfaces through
the taxonomy's timeout error. -/
inductive OrchestratorError where
  | EmptyMessageError
  | MalformedHistoryError
  | HistoryOrderError
  | InvalidArgumentsError
  | BackendTimeoutError
  | BackendUnavailableError
  | ReasoningBudgetExceededError
  | InternalError
deriving DecidableEq, Repr

/-! ## Request Validator (spec §4.1), modelled from the spec -/

/-- Modelled from the spec: a message is empty after trimming whitespace
exactly when every one of its characters is whitespace (rule 1 of §4.1). -/
def blankAfterTrim (s : String) : Bool :=
  s.data.all Char.isWhitespace

/-- Modelled from the spec: a raw turn is well formed when its role is
`user` or `assistant` and its content is non-empty (rule 2 of §4.1). -/
def wellFormedTurn (t : RawTurn) : Bool :=
  (t.role == "user" || t.role == "assistant") && t.content != ""

/-- Modelled from the spec: roles strictly alternate starting from the
expected role (rules 3 and 4 of §4.1: first turn `user`, then alternation). -/
def rolesAlternate : List RawTurn → String → Bool
  | [], _ => true
  | t :: rest, expected =>
    t.role == expected &&
      rolesAlternate rest (if expected == "user" then "assistant" else "user")

/-- Modelled from the spec: convert a shape-checked raw turn to a ChatTurn. -/
def toTurn (t : RawTurn) : ChatTurn :=
  ⟨if t.role == "user" then Role.user else Role.assistant, t.content⟩

/-- Modelled from the spec: the Request Validator of §4.1.  Rules are
checked in order, first failure wins: (1) message present and non-empty
after trimming, else `EmptyMessageError`; (2) each history turn well formed,
else `MalformedHistoryError`; (3)(4) first turn `user` and roles strictly
alternating, else `HistoryOrderError`. -/
def validate (r : RawRequest) : Except OrchestratorError ChatRequest :=
  match r.message with
  | none => .error .EmptyMessageError
  | some m =>
    if blankAfterTrim m then .error .EmptyMessageError
    else
      let hist := r.chat_history.getD []
      if !hist.all wellFormedTurn then .error .MalformedHistoryError
      else if !rolesAlternate hist "user" then .error .HistoryOrderError
      else .ok ⟨m, hist.map toTurn⟩

/-! ## Conversation Context Builder (spec §4.2), modelled from the spec -/

/-- Modelled from the spec: produce an ordered dialogue ending with the
newest user message appended to the supplied history (§4.2); a pure
function, so the caller-supplied history is never mutated. -/
def buildContext (req : ChatRequest) : List ChatTurn :=
  req.chat_history ++ [⟨Role.user, req.message⟩]

/-! ## Tool invocations, backend state and the Device Directory Adapter
(spec §4.3, §4.4), modelled from the spec -/

/-- Modelled from the spec: a tool invocation produced by the reasoning
loop (name plus string arguments). -/
structure ToolInvocation where
  tool_name : String
  arguments : List (String × String)
deriving DecidableEq, Repr

/-- Modelled from the spec: a structured tool result fed back into the
reasoning loop. -/
structure ToolResult where
  tool_name : String
  payload : String
  error : Option String
deriving DecidableEq, Repr

/-- Modelled from the spec: one registered IoT device with its type,
connectivity, last-seen instant and current attributes. -/
structure Device where
  deviceId : String
  deviceType : String
  connected : Bool
  lastSeen : Nat
  attributes : List (String × String)
deriving DecidableEq, Repr

/-- Modelled from the spec: the device backend's observable state — the
device registry and the per-device shadow documents. -/
structure BackendState where
  devices : List Device
  shadows : List (String × String)
deriving DecidableEq, Repr

/-- Modelled from the spec: look up an argument of a tool invocation. -/
def lookupArg (inv : ToolInvocation) (key : String) : Option String :=
  (inv.arguments.find? (fun p => p.1 == key)).map (·.2)

/-- Modelled from the spec: the Device Directory Adapter of §4.4.  It
handles listing devices, filtering by type, connectivity/last-seen lookup
and current-attribute lookup, reading the registry and shadow documents. -/
def deviceDirectory (st : BackendState) (inv : ToolInvocation) : ToolResult :=
  if inv.tool_name == "list_devices" then
    ⟨inv.tool_name, String.intercalate "," (st.devices.map (·.deviceId)), none⟩
  else if inv.tool_name == "list_devices_by_type" then
    match lookupArg inv "device_type" with
    | none => ⟨inv.tool_name, "", some "InvalidArgumentsError"⟩
    | some ty =>
      ⟨inv.tool_name,
        String.intercalate ","
          (((st.devices.filter (fun d => d.deviceType == ty)).map (·.deviceId))),
        none⟩
  else if inv.tool_name == "get_connectivity" then
    match lookupArg inv "device_id" with
    | none => ⟨inv.tool_name, "", some "InvalidArgumentsError"⟩
    | some i =>
      match st.devices.find? (fun d => d.deviceId == i) with
      | none => ⟨inv.tool_name, "", some "NotFoundError"⟩
      | some d =>
        ⟨inv.tool_name,
          (if d.connected then "connected" else "disconnected") ++
            " last_seen=" ++ toString d.lastSeen, none⟩
  else if inv.tool_name == "get_device_attributes" then
    match lookupArg inv "device_id" with
    | none => ⟨inv.tool_name, "", some "InvalidArgumentsError"⟩
    | some i =>
      match st.shadows.find? (fun p => p.1 == i) with
      | none => ⟨inv.tool_name, "", some "NotFoundError"⟩
      | some p => ⟨inv.tool_name, p.2, none⟩
  else
    ⟨inv.tool_name, "", some "NotFoundError"⟩

/-- Modelled from the spec: execute one tool invocation against the
backend, returning the (unchanged, the adapter is read-only per §4.4)
backend state together with the structured result. -/
def executeTool (st : BackendState) (inv : ToolInvocation) :
    BackendState × ToolResult :=
  (st, deviceDirectory st inv)

/-! ## Reasoning Loop (spec §4.5), modelled from the spec -/

/-- Modelled from the spec: output of the model-inference capability —
either a final answer or a request to invoke a named tool (§6 outbound). -/
inductive ModelOutput where
  | finalAnswer (text : String)
  | toolCall (inv : ToolInvocation)
deriving DecidableEq, Repr

/-- Modelled from the spec: the model-inference capability as a black box —
given the dialogue and the tool results so far, return a final answer or a
tool call.  Tests substitute a scripted capability of this same shape. -/
def InferenceCapability : Type :=
  List ChatTurn → List ToolResult → ModelOutput

/-- Modelled from the spec: a terminal outcome of the reasoning loop —
`DONE` with the final text or `FAILED` with the originating error (§4.5). -/
inductive LoopOutcome where
  | DONE (text : String)
  | FAILED (e : OrchestratorError)
deriving DecidableEq, Repr

/-- Modelled from the spec: the fixed maximum number of tool calls per
request (§4.5).  The exact value is an unspecified policy constant (§9). -/
def maxToolCalls : Nat := 5

/-- Modelled from the spec: the reasoning loop of §4.5 with the remaining
tool-call budget as fuel.  From `AWAITING_MODEL` the inference capability
returns either a final answer (`DONE`) or a tool invocation; a tool
invocation with no budget left fails with `ReasoningBudgetExceededError`,
otherwise the adapter executes it, the result is appended to the running
context and the loop re-enters `AWAITING_MODEL`. -/
def runLoopAux (cap : InferenceCapability) (ctx : List ChatTurn) :
    BackendState → List ToolResult → Nat → BackendState × LoopOutcome
  | st, results, fuel =>
    match cap ctx results with
    | .finalAnswer t => (st, .DONE t)
    | .toolCall inv =>
      match fuel with
      | 0 => (st, .FAILED .ReasoningBudgetExceededError)
      | fuel' + 1 =>
        let (st', res) := executeTool st inv
        runLoopAux cap ctx st' (results ++ [res]) fuel'

/-- Modelled from the spec: run the reasoning loop from its initial state
(`AWAITING_MODEL`, empty step record, full tool-call budget). -/
def runLoop (cap : InferenceCapability) (ctx : List ChatTurn)
    (st : BackendState) : BackendState × LoopOutcome :=
  runLoopAux cap ctx st [] maxToolCalls

/-! ## Response Formatter (spec §4.6), modelled from the spec -/

/-- Modelled from the spec: the caller-visible envelope (§3, §6): both
`response` and `error` are always present, possibly null. -/
structure ChatResponse where
  response : Option String
  timestamp : String
  success : Bool
  error : Option String
deriving DecidableEq, Repr

/-- Modelled from the spec: human-readable message derived from the error
taxonomy (§7). -/
def errorMessage : OrchestratorError → String
  | .EmptyMessageError => "Message must be a non-empty string"
  | .MalformedHistoryError => "chat_history contains a malformed turn"
  | .HistoryOrderError =>
      "chat_history roles must strictly alternate starting with user"
  | .InvalidArgumentsError => "Tool invocation violated the tool schema"
  | .BackendTimeoutError => "The backend request timed out"
  | .BackendUnavailableError => "The backend is temporarily unavailable"
  | .ReasoningBudgetExceededError =>
      "Reasoning budget exceeded: the query was too complex to resolve"
  | .InternalError => "Internal error"

/-- Modelled from the spec: the Response Formatter of §4.6 on terminal loop
outcomes.  On `DONE`: response text, success, null error.  On `FAILED`:
null response, failure, human-readable error message. -/
def formatOutcome (now : String) : LoopOutcome → ChatResponse
  | .DONE t => ⟨some t, now, true, none⟩
  | .FAILED e => ⟨none, now, false, some (errorMessage e)⟩

/-- Modelled from the spec: the full per-request pipeline of §2:
Validator → Context Builder → Reasoning Loop → Formatter, threading the
backend state through (validation failures reach the Formatter as `FAILED`
outcomes and never touch the backend). -/
def handleRequest (cap : InferenceCapability) (st : BackendState)
    (now : String) (r : RawRequest) : BackendState × ChatResponse :=
  match validate r with
  | .error e => (st, formatOutcome now (.FAILED e))
  | .ok req =>
    let ctx := buildContext req
    let (st', outcome) := runLoop cap ctx st
    (st', formatOutcome now outcome)

/-! ## End-to-end deadline (spec §5) and the deployed timeout

The Lambda function's deployed timeout is infrastructure code present in
`lib/strands-agent-chatbot-apigateway-stack.ts`; the mid-loop cancellation
behaviour is modelled from the spec. -/

/-- Configuration of the deployed Lambda function, embedded from
`lib/strands-agent-chatbot-apigateway-stack.ts` (the `AgentLambda`
function definition). -/
structure LambdaFunctionConfig where
  runtime : String
  handler : String
  timeoutSeconds : Nat
  memorySize : Nat
  architecture : String
deriving DecidableEq, Repr

/-- Embedded from `lib/strands-agent-chatbot-apigateway-stack.ts` lines
25–36: the `iotAgentFunction` Lambda with `timeout: Duration.seconds(120)`. -/
def iotAgentFunction : LambdaFunctionConfig :=
  ⟨"PYTHON_3_12", "agent_handler.handler", 120, 512, "ARM_64"⟩

/-- Modelled from the spec: the end-to-end deadline bounding each request
(§5), equal to the deployed Lambda timeout of 120 seconds. -/
def deadlineSeconds : Nat := iotAgentFunction.timeoutSeconds

/-- Modelled from the spec: the environment of a timed run — the inference
capability together with the wall-clock seconds each inference call and
each tool execution consumes. -/
structure TimedCapability where
  infer : List ChatTurn → List ToolResult → ModelOutput
  inferSeconds : List ChatTurn → List ToolResult → Nat
  toolSeconds : ToolInvocation → Nat

/-- Modelled from the spec: the reasoning loop of §4.5 with the
cancellation checkpoints of §5.  The elapsed time is checked after each
in-flight inference or adapter call returns (the two suspension points);
once the end-to-end deadline is exceeded the loop aborts at that next safe
point with the taxonomy's timeout error. -/
def runLoopTimedAux (cap : TimedCapability) (ctx : List ChatTurn) :
    BackendState → List ToolResult → Nat → Nat → BackendState × LoopOutcome
  | st, results, elapsed, fuel =>
    let afterInfer := elapsed + cap.inferSeconds ctx results
    if deadlineSeconds < afterInfer then (st, .FAILED .BackendTimeoutError)
    else
      match cap.infer ctx results with
      | .finalAnswer t => (st, .DONE t)
      | .toolCall inv =>
        match fuel with
        | 0 => (st, .FAILED .ReasoningBudgetExceededError)
        | fuel' + 1 =>
          let (st', res) := executeTool st inv
          let afterTool := afterInfer + cap.toolSeconds inv
          if deadlineSeconds < afterTool then
            (st', .FAILED .BackendTimeoutError)
          else runLoopTimedAux cap ctx st' (results ++ [res]) afterTool fuel'

/-! ## ChatResponse serialization (spec §8 round-trip property),
modelled from the spec -/

/-- Modelled from the spec: the JSON values a serialized ChatResponse is
built from. -/
inductive Json where
  | null
  | str (s : String)
  | boolean (b : Bool)
  | obj (fields : List (String × Json))

/-- Modelled from the spec: look up a key among the fields of a serialized
object. -/
def jsonField (fields : List (String × Json)) (key : String) : Option Json :=
  (fields.find? (fun p => p.1 == key)).map (·.2)

/-- Modelled from the spec: serialize a ChatResponse to JSON with all four
envelope keys always present; a null `response` or `error` is emitted as an
explicit JSON null, never omitted (§8). -/
def serializeChatResponse (r : ChatResponse) : Json :=
  .obj
    [ ("response", match r.response with | none => .null | some s => .str s),
      ("timestamp", .str r.timestamp),
      ("success", .boolean r.success),
      ("error", match r.error with | none => .null | some s => .str s) ]

/-- Modelled from the spec: parse a serialized ChatResponse back from JSON,
failing on a missing key or an ill-typed field. -/
def parseChatResponse (j : Json) : Option ChatResponse :=
  match j with
  | .obj fields => do
    let rj ← jsonField fields "response"
    let tj ← jsonField fields "timestamp"
    let sj ← jsonField fields "success"
    let ej ← jsonField fields "error"
    let resp ← match rj with
      | .null => some none
      | .str s => some (some s)
      | _ => none
    let ts ← match tj with
      | .str s => some s
      | _ => none
    let succ ← match sj with
      | .boolean b => some b
      | _ => none
    let err ← match ej with
      | .null => some none
      | .str s => some (some s)
      | _ => none
    some ⟨resp, ts, succ, err⟩
  | _ => none

/-! ## API Gateway wiring, embedded from
`lib/strands-agent-chatbot-apigateway-stack.ts` -/

/-- Embedded from the stack: what a REST API method is integrated with —
the `AgentLambda` function via `LambdaIntegration`, or the mock
integration CDK generates for CORS preflight methods. -/
inductive IntegrationKind where
  | lambdaFn (functionId : String)
  | mock
deriving DecidableEq, Repr

/-- Embedded from the stack: one method of the deployed REST API. -/
structure ApiMethod where
  resourcePath : String
  httpMethod : String
  integration : IntegrationKind
  apiKeyRequired : Bool
deriving DecidableEq, Repr

/-- Embedded from `lib/strands-agent-chatbot-apigateway-stack.ts`: the
`RestApi` is created with `defaultCorsPreflightOptions` (lines 113–121),
which adds a mock-integration `OPTIONS` preflight method to the root and to
every resource, and the only explicitly added method is
`chatResource.addMethod("POST", lambdaIntegration, apiKeyRequired true)`
(lines 152–156). -/
def apiMethods : List ApiMethod :=
  [ ⟨"/", "OPTIONS", .mock, false⟩,
    ⟨"/chat", "OPTIONS", .mock, false⟩,
    ⟨"/chat", "POST", .lambdaFn "AgentLambda", true⟩ ]

/-- Embedded from the stack: the methods created on the `/chat` resource. -/
def chatMethods : List ApiMethod :=
  apiMethods.filter (fun m => m.resourcePath == "/chat")

/-- Modelled from the spec: API Gateway's `apiKeyRequired` semantics for
the HTTP front door (§1's authentication collaborator) — a request is
forwarded to the method's integration only when the method does not
require an API key or the request carries a valid one. -/
def gatewayForwards (hasValidApiKey : Bool) (m : ApiMethod) : Bool :=
  !m.apiKeyRequired || hasValidApiKey

/-- Embedded from `lib/strands-agent-chatbot-apigateway-stack.ts` lines
60–72: the IoT actions granted to the Lambda function's role. -/
def iotPolicyActions : List String :=
  [ "iot:ListThings", "iot:ListThingTypes", "iot:DescribeThing",
    "iot:GetThingShadow", "iot:UpdateThingShadow", "iot:SearchIndex" ]

/-! ## Helper lemmas -/

/-- The adapter leaves the backend state untouched. -/
theorem executeTool_fst (st : BackendState) (inv : ToolInvocation) :
    (executeTool st inv).1 = st := rfl

/-- The reasoning loop threads the backend state through unchanged. -/
theorem runLoopAux_fst (cap : InferenceCapability) (ctx : List ChatTurn) :
    ∀ (fuel : Nat) (st : BackendState) (rs : List ToolResult),
      (runLoopAux cap ctx st rs fuel).1 = st := by
  intro fuel
  induction fuel with
  | zero =>
    intro st rs
    unfold runLoopAux
    cases cap ctx rs <;> rfl
  | succ fuel' ih =>
    intro st rs
    unfold runLoopAux
    cases cap ctx rs with
    | finalAnswer t => rfl
    | toolCall inv => exact ih st (rs ++ [(executeTool st inv).2])

/-- If the capability answers every context with a tool call, the loop ends
with the budget-exceeded failure whatever the remaining fuel. -/
theorem runLoopAux_budget (cap : InferenceCapability) (ctx : List ChatTurn)
    (hcap : ∀ rs, ∃ inv, cap ctx rs = .toolCall inv) :
    ∀ (fuel : Nat) (st : BackendState) (rs : List ToolResult),
      (runLoopAux cap ctx st rs fuel).2 =
        .FAILED .ReasoningBudgetExceededError := by
  intro fuel
  induction fuel with
  | zero =>
    intro st rs
    obtain ⟨inv, hinv⟩ := hcap rs
    unfold runLoopAux
    rw [hinv]
  | succ fuel' ih =>
    intro st rs
    obtain ⟨inv, hinv⟩ := hcap rs
    unfold runLoopAux
    rw [hinv]
    exact ih st (rs ++ [(executeTool st inv).2])

/-- The whole pipeline leaves the backend state untouched. -/
theorem handleRequest_fst (cap : InferenceCapability) (st : BackendState)
    (now : String) (r : RawRequest) :
    (handleRequest cap st now r).1 = st := by
  unfold handleRequest
  cases validate r with
  | error e => rfl
  | ok req =>
    simp only [runLoop]
    rw [show (runLoopAux cap (buildContext req) st [] maxToolCalls).1 = st from
      runLoopAux_fst cap (buildContext req) maxToolCalls st []]

/-- The formatter consumes the timestamp only for the `timestamp` field. -/
theorem formatOutcome_time_agnostic (now now' : String) (o : LoopOutcome) :
    (formatOutcome now o).response = (formatOutcome now' o).response ∧
    (formatOutcome now o).success = (formatOutcome now' o).success ∧
    (formatOutcome now o).error = (formatOutcome now' o).error := by
  cases o <;> exact ⟨rfl, rfl, rfl⟩

/-- Apart from the timestamp, the envelope does not depend on the clock. -/
theorem handleRequest_time_agnostic (cap : InferenceCapability)
    (st : BackendState) (now now' : String) (r : RawRequest) :
    (handleRequest cap st now r).2.response =
      (handleRequest cap st now' r).2.response ∧
    (handleRequest cap st now r).2.success =
      (handleRequest cap st now' r).2.success ∧
    (handleRequest cap st now r).2.error =
      (handleRequest cap st now' r).2.error := by
  unfold handleRequest
  cases validate r with
  | error e => exact formatOutcome_time_agnostic now now' (.FAILED e)
  | ok req =>
    simp only []
    exact formatOutcome_time_agnostic now now'
      (runLoop cap (buildContext req) st).2

/-! ## Claim theorems -/

/-- Claim C2: the Request Validator checks its rules in a fixed order with
first failure winning — every request whose message is absent, empty, or
whitespace-only after trimming is rejected with `EmptyMessageError`,
whatever `chat_history` holds, even a malformed history. -/
theorem claim_C2_empty_message_first (r : RawRequest)
    (h : ∀ m, r.message = some m → blankAfterTrim m = true) :
    validate r = .error .EmptyMessageError := by
  cases hm : r.message with
  | none => unfold validate; rw [hm]
  | some m =>
    have htrim : blankAfterTrim m = true := h m hm
    unfold validate
    rw [hm]
    simp [htrim]

/-- Claim C2 witness: a whitespace-only message with a malformed history
(role `robot`, empty content) is still rejected with `EmptyMessageError`. -/
theorem claim_C2_empty_message_first_witness :
    validate ⟨some "   ", some [⟨"robot", ""⟩]⟩ =
      .error .EmptyMessageError :=
  claim_C2_empty_message_first ⟨some "   ", some [⟨"robot", ""⟩]⟩
    (by intro m hm; cases hm; decide)

/-- Claim C3: for every request with a non-empty message and a non-empty
history of well-formed turns whose roles do not strictly alternate starting
with `user`, the Validator rejects with `HistoryOrderError` instead of
repairing the history. -/
theorem claim_C3_history_order (msg : String) (hist : List RawTurn)
    (hmsg : blankAfterTrim msg = false)
    (hshape : hist.all wellFormedTurn = true)
    (horder : rolesAlternate hist "user" = false) :
    validate ⟨some msg, some hist⟩ = .error .HistoryOrderError := by
  unfold validate
  simp [hmsg, hshape, horder]

/-- Claim C3 witness: the history whose only turn has role `assistant` is
rejected with `HistoryOrderError`. -/
theorem claim_C3_history_order_witness :
    validate ⟨some "hello", some [⟨"assistant", "hi"⟩]⟩ =
      .error .HistoryOrderError :=
  claim_C3_history_order "hello" [⟨"assistant", "hi"⟩]
    (by decide) (by decide) (by decide)

/-- Claim C7: for every validated ChatRequest the Conversation Context
Builder returns the supplied history with the message appended as the
newest `user` turn — the output dialogue equals `history ++ [user message]`,
the supplied history survives unchanged as the prefix of the output, and
the newest turn is the user message; the builder is a pure function, so
the caller-supplied history itself is never mutated. -/
theorem claim_C7_context_append (req : ChatRequest) :
    buildContext req = req.chat_history ++ [⟨Role.user, req.message⟩] ∧
    (buildContext req).take req.chat_history.length = req.chat_history ∧
    (buildContext req).getLast? = some ⟨Role.user, req.message⟩ := by
  refine ⟨rfl, ?_, ?_⟩
  · unfold buildContext
    exact List.take_left req.chat_history _
  · unfold buildContext
    exact List.getLast?_concat _

/-- A non-blank message with the empty history validates to the obvious
ChatRequest. -/
theorem validate_simple (msg : String) (h : blankAfterTrim msg = false) :
    validate ⟨some msg, some []⟩ = .ok ⟨msg, []⟩ := by
  unfold validate
  simp [h, rolesAlternate]

/-- On a validated request the pipeline formats the loop's outcome. -/
theorem handleRequest_ok (cap : InferenceCapability) (st : BackendState)
    (now : String) (r : RawRequest) (req : ChatRequest)
    (h : validate r = .ok req) :
    (handleRequest cap st now r).2 =
      formatOutcome now (runLoop cap (buildContext req) st).2 := by
  unfold handleRequest
  rw [h]

/-- The pipeline's envelope is always the formatter applied to an outcome. -/
theorem handleRequest_formats (cap : InferenceCapability) (st : BackendState)
    (now : String) (r : RawRequest) :
    ∃ o, (handleRequest cap st now r).2 = formatOutcome now o := by
  unfold handleRequest
  cases validate r with
  | error e => exact ⟨.FAILED e, rfl⟩
  | ok req => exact ⟨(runLoop cap (buildContext req) st).2, rfl⟩

/-- Claim C1: against a scripted inference capability that keeps returning
tool calls, the reasoning loop (a total function, hence terminating) ends
with `FAILED ReasoningBudgetExceededError` once the fixed tool-call budget
is exhausted, and the caller's envelope is `success = false` with the
budget-exceeded message. -/
theorem claim_C1_budget_enforced (cap : InferenceCapability)
    (st : BackendState) (now msg : String)
    (hmsg : blankAfterTrim msg = false)
    (hcap : ∀ ctx rs, ∃ inv, cap ctx rs = .toolCall inv) :
    (runLoop cap (buildContext ⟨msg, []⟩) st).2 =
      .FAILED .ReasoningBudgetExceededError ∧
    (handleRequest cap st now ⟨some msg, some []⟩).2.success = false ∧
    (handleRequest cap st now ⟨some msg, some []⟩).2.error =
      some (errorMessage .ReasoningBudgetExceededError) := by
  have hloop : (runLoop cap (buildContext ⟨msg, []⟩) st).2 =
      .FAILED .ReasoningBudgetExceededError :=
    runLoopAux_budget cap (buildContext ⟨msg, []⟩)
      (hcap (buildContext ⟨msg, []⟩)) maxToolCalls st []
  have henv := handleRequest_ok cap st now ⟨some msg, some []⟩ ⟨msg, []⟩
    (validate_simple msg hmsg)
  rw [hloop] at henv
  exact ⟨hloop, by rw [henv]; rfl, by rw [henv]; rfl⟩

/-- Claim C1 witness: the scripted capability that always asks for
`list_devices` drives the loop into the budget failure and the envelope
reports it. -/
theorem claim_C1_budget_enforced_witness :
    (runLoop (fun _ _ => .toolCall ⟨"list_devices", []⟩)
        (buildContext ⟨"What IoT devices do I have?", []⟩) ⟨[], []⟩).2 =
      .FAILED .ReasoningBudgetExceededError ∧
    (handleRequest (fun _ _ => .toolCall ⟨"list_devices", []⟩) ⟨[], []⟩
        "2025-08-15T07:17:21Z"
        ⟨some "What IoT devices do I have?", some []⟩).2.success = false ∧
    (handleRequest (fun _ _ => .toolCall ⟨"list_devices", []⟩) ⟨[], []⟩
        "2025-08-15T07:17:21Z"
        ⟨some "What IoT devices do I have?", some []⟩).2.error =
      some (errorMessage .ReasoningBudgetExceededError) :=
  claim_C1_budget_enforced (fun _ _ => .toolCall ⟨"list_devices", []⟩)
    ⟨[], []⟩ "2025-08-15T07:17:21Z" "What IoT devices do I have?"
    (by decide) (fun _ _ => ⟨⟨"list_devices", []⟩, rfl⟩)

/-- Claim C4: the Response Formatter is total over terminal outcomes; a
`DONE` outcome yields the final text with `success = true` and a null
error, a `FAILED` outcome yields a null response with `success = false`
and a non-null human-readable error, and every envelope the pipeline emits
(including for validation failures) has exactly one of `response` and
`error` carrying the payload while both fields are always present. -/
theorem claim_C4_formatter_envelope :
    (∀ now t, formatOutcome now (.DONE t) = ⟨some t, now, true, none⟩) ∧
    (∀ now e, formatOutcome now (.FAILED e) =
      ⟨none, now, false, some (errorMessage e)⟩) ∧
    (∀ (cap : InferenceCapability) (st : BackendState) (now : String)
        (r : RawRequest),
      ((handleRequest cap st now r).2.success = true →
        (handleRequest cap st now r).2.error = none ∧
        ∃ t, (handleRequest cap st now r).2.response = some t) ∧
      ((handleRequest cap st now r).2.success = false →
        (handleRequest cap st now r).2.response = none ∧
        ∃ m, (handleRequest cap st now r).2.error = some m)) := by
  refine ⟨fun now t => rfl, fun now e => rfl, fun cap st now r => ?_⟩
  obtain ⟨o, ho⟩ := handleRequest_formats cap st now r
  rw [ho]
  cases o with
  | DONE t => exact ⟨fun _ => ⟨rfl, t, rfl⟩, fun h => by simp [formatOutcome] at h⟩
  | FAILED e =>
    exact ⟨fun h => by simp [formatOutcome] at h,
      fun _ => ⟨rfl, errorMessage e, rfl⟩⟩

/-- Claim C4 witness: on a request the scripted capability answers at once,
the emitted envelope's success forces a null error and a non-null
response. -/
theorem claim_C4_formatter_envelope_witness :
    (handleRequest (fun _ _ => .finalAnswer "ok") ⟨[], []⟩ "t0"
        ⟨some "hi", some []⟩).2.error = none ∧
    ∃ t, (handleRequest (fun _ _ => .finalAnswer "ok") ⟨[], []⟩ "t0"
        ⟨some "hi", some []⟩).2.response = some t :=
  (claim_C4_formatter_envelope.2.2 (fun _ _ => .finalAnswer "ok")
    ⟨[], []⟩ "t0" ⟨some "hi", some []⟩).1 rfl

/-- Claim C5: the Device Directory Adapter is read-only — executing any
tool invocation returns the backend state unchanged (registry and shadow
documents both), and consequently an entire reasoning-loop run leaves the
backend state unchanged. -/
theorem claim_C5_adapter_readonly :
    ∀ st : BackendState,
      (∀ inv : ToolInvocation,
        (executeTool st inv).1 = st ∧
        (executeTool st inv).1.devices = st.devices ∧
        (executeTool st inv).1.shadows = st.shadows) ∧
      (∀ (cap : InferenceCapability) (ctx : List ChatTurn),
        (runLoop cap ctx st).1 = st) := by
  intro st
  refine ⟨fun inv => ⟨rfl, rfl, rfl⟩, fun cap ctx => ?_⟩
  exact runLoopAux_fst cap ctx maxToolCalls st []

/-- Claim C6: each request is bounded by an end-to-end deadline of 120
seconds in the deployed configuration (the Lambda timeout); whenever the
deadline is exceeded mid-loop, the timed loop aborts at the next safe
point — right after the in-flight inference call or the in-flight adapter
call returns — with a timeout failure, and the formatted envelope gives
the caller `success = false` with the timeout message. -/
theorem claim_C6_deadline_bound :
    iotAgentFunction.timeoutSeconds = 120 ∧
    deadlineSeconds = iotAgentFunction.timeoutSeconds ∧
    (∀ (cap : TimedCapability) (ctx : List ChatTurn) (st : BackendState)
        (rs : List ToolResult) (elapsed fuel : Nat),
      deadlineSeconds < elapsed + cap.inferSeconds ctx rs →
      (runLoopTimedAux cap ctx st rs elapsed fuel).2 =
        .FAILED .BackendTimeoutError) ∧
    (∀ (cap : TimedCapability) (ctx : List ChatTurn) (st : BackendState)
        (rs : List ToolResult) (elapsed fuel' : Nat) (inv : ToolInvocation),
      ¬ deadlineSeconds < elapsed + cap.inferSeconds ctx rs →
      cap.infer ctx rs = .toolCall inv →
      deadlineSeconds < elapsed + cap.inferSeconds ctx rs +
        cap.toolSeconds inv →
      (runLoopTimedAux cap ctx st rs elapsed (fuel' + 1)).2 =
        .FAILED .BackendTimeoutError) ∧
    (∀ now, (formatOutcome now (.FAILED .BackendTimeoutError)).success =
        false ∧
      (formatOutcome now (.FAILED .BackendTimeoutError)).error =
        some (errorMessage .BackendTimeoutError)) := by
  refine ⟨rfl, rfl, ?_, ?_, fun now => ⟨rfl, rfl⟩⟩
  · intro cap ctx st rs elapsed fuel h
    unfold runLoopTimedAux
    simp only [if_pos h]
  · intro cap ctx st rs elapsed fuel' inv h1 h2 h3
    unfold runLoopTimedAux
    simp only [if_neg h1, h2, if_pos h3]

/-- Claim C6 witness: an inference call that consumes 200 seconds trips the
120-second deadline and the loop reports the timeout failure. -/
theorem claim_C6_deadline_bound_witness :
    deadlineSeconds < 0 + 200 ∧
    (runLoopTimedAux
        ⟨fun _ _ => .finalAnswer "x", fun _ _ => 200, fun _ => 0⟩
        [] ⟨[], []⟩ [] 0 5).2 = .FAILED .BackendTimeoutError :=
  ⟨by decide,
    claim_C6_deadline_bound.2.2.1
      ⟨fun _ _ => .finalAnswer "x", fun _ _ => 200, fun _ => 0⟩
      [] ⟨[], []⟩ [] 0 5 (by decide)⟩

/-- Claim C8: orchestration is deterministic given deterministic
collaborators — processing the same message with the same empty history
twice in a row against the same backend leaves the backend state unchanged
after the first request and yields the same `response`, `success` and
`error` (only the timestamps may differ). -/
theorem claim_C8_idempotent (cap : InferenceCapability) (st : BackendState)
    (now1 now2 msg : String) :
    (handleRequest cap st now1 ⟨some msg, some []⟩).1 = st ∧
    (handleRequest cap (handleRequest cap st now1 ⟨some msg, some []⟩).1
        now2 ⟨some msg, some []⟩).2.response =
      (handleRequest cap st now1 ⟨some msg, some []⟩).2.response ∧
    (handleRequest cap (handleRequest cap st now1 ⟨some msg, some []⟩).1
        now2 ⟨some msg, some []⟩).2.success =
      (handleRequest cap st now1 ⟨some msg, some []⟩).2.success ∧
    (handleRequest cap (handleRequest cap st now1 ⟨some msg, some []⟩).1
        now2 ⟨some msg, some []⟩).2.error =
      (handleRequest cap st now1 ⟨some msg, some []⟩).2.error := by
  refine ⟨handleRequest_fst cap st now1 ⟨some msg, some []⟩, ?_, ?_, ?_⟩ <;>
    rw [handleRequest_fst cap st now1 ⟨some msg, some []⟩]
  · exact (handleRequest_time_agnostic cap st now2 now1
      ⟨some msg, some []⟩).1
  · exact (handleRequest_time_agnostic cap st now2 now1
      ⟨some msg, some []⟩).2.1
  · exact (handleRequest_time_agnostic cap st now2 now1
      ⟨some msg, some []⟩).2.2

/-- Claim C9: serializing a ChatResponse and parsing the result back is the
identity field-for-field, and a null `error` is serialized as an explicit
JSON null under the `error` key rather than an omitted key. -/
theorem claim_C9_roundtrip (r : ChatResponse) :
    parseChatResponse (serializeChatResponse r) = some r ∧
    (r.error = none → ∃ fs, serializeChatResponse r = .obj fs ∧
      jsonField fs "error" = some .null) := by
  obtain ⟨resp, ts, succ, err⟩ := r
  refine ⟨?_, ?_⟩
  · cases resp <;> cases err <;> rfl
  · intro he
    simp only at he
    subst he
    cases resp <;> exact ⟨_, rfl, rfl⟩

/-- Claim C9 witness: a concrete successful envelope with a null error
round-trips and carries an explicit null under the `error` key. -/
theorem claim_C9_roundtrip_witness :
    parseChatResponse (serializeChatResponse ⟨some "hi", "t0", true, none⟩) =
      some ⟨some "hi", "t0", true, none⟩ ∧
    ∃ fs, serializeChatResponse ⟨some "hi", "t0", true, none⟩ = .obj fs ∧
      jsonField fs "error" = some .null :=
  ⟨(claim_C9_roundtrip ⟨some "hi", "t0", true, none⟩).1,
    (claim_C9_roundtrip ⟨some "hi", "t0", true, none⟩).2 rfl⟩

/-- Claim C10: the deployed `/chat` resource carries the POST method wired
to the Lambda integration with the API-key requirement enabled; every
method on `/chat` other than POST is the CORS preflight (OPTIONS, mock
integration, not the Lambda); and the gateway does not forward a request
lacking a valid API key to a method that requires one. -/
theorem claim_C10_api_key_required :
    (ApiMethod.mk "/chat" "POST" (.lambdaFn "AgentLambda") true ∈
      chatMethods) ∧
    (∀ m ∈ chatMethods, m.integration ≠ .mock →
      m.httpMethod = "POST" ∧ m.integration = .lambdaFn "AgentLambda" ∧
        m.apiKeyRequired = true) ∧
    (∀ m ∈ chatMethods, m.httpMethod ≠ "POST" →
      m.httpMethod = "OPTIONS" ∧ m.integration = .mock) ∧
    (∀ m ∈ chatMethods, m.apiKeyRequired = true →
      gatewayForwards false m = false) := by
  decide

/-- Claim C10 witness: the POST method on `/chat` is not forwarded by the
gateway when the request lacks a valid API key. -/
theorem claim_C10_api_key_required_witness :
    gatewayForwards false
      (ApiMethod.mk "/chat" "POST" (.lambdaFn "AgentLambda") true) = false :=
  claim_C10_api_key_required.2.2.2
    (ApiMethod.mk "/chat" "POST" (.lambdaFn "AgentLambda") true)
    (by decide) rfl
